import Mathlib

/-!
Verification development for the browser chat client
(`src/components/chat-interface.tsx`, `src/app/api/chat/route.ts`).

The TypeScript source is shallowly embedded: React component state becomes an
explicit record, `localStorage` becomes an optional stored blob carried in the
state, the asynchronous exchange becomes an explicit two-phase transition
(submission / completion with a captured closure snapshot), and the platform
primitives `JSON.parse`, `Date#toISOString` and `new Date(string)` are
implemented as executable Lean functions.
-/

set_option autoImplicit false

namespace ChatClient

/-! ## JavaScript-style character and string helpers -/

/-- Whitespace as matched by the regex class `\s` and by `String.prototype.trim`
(restricted to the ASCII whitespace actually occurring in chat payloads). -/
def jsWs (c : Char) : Bool :=
  c == ' ' || c == '\t' || c == '\n' || c == '\r' || c == '\x0c' || c == '\x0b'

/-- The `startsWith` test on character lists. -/
def listStartsWith : List Char → List Char → Bool
  | _, [] => true
  | [], _ :: _ => false
  | c :: cs, p :: ps => c == p && listStartsWith cs ps

/-- The `endsWith` test on character lists. -/
def listEndsWith (l p : List Char) : Bool :=
  listStartsWith l.reverse p.reverse

/-- Model of `String.prototype.trim` over a character list. -/
def listTrim (l : List Char) : List Char :=
  ((l.dropWhile jsWs).reverse.dropWhile jsWs).reverse

/-- Drop trailing `\s*` from a character list. -/
def listTrimRight (l : List Char) : List Char :=
  (l.reverse.dropWhile jsWs).reverse

/-! ## JSON values (result of `JSON.parse`) -/

/-- A parsed JSON value.  Numbers are kept as a decimal mantissa together with
a power-of-ten exponent, which is exact for every JSON numeric literal. -/
inductive Json where
  | null
  | bool (b : Bool)
  | num (mantissa : Int) (exp10 : Int)
  | str (s : String)
  | arr (items : List Json)
  | obj (fields : List (String × Json))
  deriving Repr

/-- JavaScript truthiness of a parsed JSON value: `null`, `false`, `0` and the
empty string are falsy; every object and array is truthy. -/
def Json.truthy : Json → Bool
  | .null => false
  | .bool b => b
  | .num m _ => m != 0
  | .str s => s != ""
  | .arr _ => true
  | .obj _ => true

/-- Whether the top-level parsed value is an object. -/
def Json.isObj : Json → Bool
  | .obj _ => true
  | _ => false

/-! ## An executable model of `JSON.parse`

Fuel-based recursive-descent parser over the grammar accepted by
`JSON.parse`: the six value forms, `\uXXXX` and single-character escapes in
strings, optional fraction and exponent in numbers, and rejection of trailing
garbage. -/

/-- Hex digit value, accepting both cases (as in `\uXXXX` escapes). -/
def hexVal (c : Char) : Option Nat :=
  if '0' ≤ c ∧ c ≤ '9' then some (c.toNat - 48)
  else if 'a' ≤ c ∧ c ≤ 'f' then some (c.toNat - 87)
  else if 'A' ≤ c ∧ c ≤ 'F' then some (c.toNat - 55)
  else none

/-- Skip JSON insignificant whitespace. -/
def jpSkipWs : List Char → List Char
  | [] => []
  | c :: cs => if c == ' ' || c == '\t' || c == '\n' || c == '\r' then jpSkipWs cs else c :: cs

/-- Parse the remainder of a JSON string literal (the opening quote already
consumed), returning the decoded characters and the input after the closing
quote.  Unescaped control characters are rejected, as `JSON.parse` does. -/
def jpStringRest : Nat → List Char → Option (List Char × List Char)
  | 0, _ => none
  | _ + 1, [] => none
  | fuel + 1, c :: cs =>
    if c == '"' then some ([], cs)
    else if c == '\\' then
      match cs with
      | [] => none
      | e :: cs2 =>
        if e == '"' ∨ e == '\\' ∨ e == '/' then
          (jpStringRest fuel cs2).map (fun p => (e :: p.1, p.2))
        else if e == 'b' then (jpStringRest fuel cs2).map (fun p => (Char.ofNat 8 :: p.1, p.2))
        else if e == 'f' then (jpStringRest fuel cs2).map (fun p => (Char.ofNat 12 :: p.1, p.2))
        else if e == 'n' then (jpStringRest fuel cs2).map (fun p => ('\n' :: p.1, p.2))
        else if e == 'r' then (jpStringRest fuel cs2).map (fun p => ('\r' :: p.1, p.2))
        else if e == 't' then (jpStringRest fuel cs2).map (fun p => ('\t' :: p.1, p.2))
        else if e == 'u' then
          match cs2 with
          | a :: b :: c2 :: d :: cs3 =>
            match hexVal a, hexVal b, hexVal c2, hexVal d with
            | some va, some vb, some vc, some vd =>
              (jpStringRest fuel cs3).map
                (fun p => (Char.ofNat (va * 4096 + vb * 256 + vc * 16 + vd) :: p.1, p.2))
            | _, _, _, _ => none
          | _ => none
        else none
    else if c.toNat < 32 then none
    else (jpStringRest fuel cs).map (fun p => (c :: p.1, p.2))

/-- Split off a maximal run of decimal digits. -/
def jpSpanDigits : List Char → List Char × List Char
  | [] => ([], [])
  | c :: cs =>
    if c.isDigit then
      let p := jpSpanDigits cs
      (c :: p.1, p.2)
    else ([], c :: cs)

/-- Decimal digits to a natural number. -/
def digitsToNat (ds : List Char) : Nat :=
  ds.foldl (fun a c => a * 10 + (c.toNat - 48)) 0

/-- Parse a JSON numeric literal (sign, integer part without leading zeros,
optional fraction, optional exponent). -/
def jpNumber (cs : List Char) : Option (Json × List Char) :=
  let signed := match cs with
    | '-' :: r => (true, r)
    | _ => (false, cs)
  match signed.2 with
  | [] => none
  | c :: _ =>
    if c.isDigit then
      let intPart := jpSpanDigits signed.2
      if intPart.1.length > 1 ∧ c == '0' then none
      else
        let fracPart : Option (List Char) × List Char := match intPart.2 with
          | '.' :: r =>
            let f := jpSpanDigits r
            (some f.1, f.2)
          | _ => (none, intPart.2)
        if fracPart.1 == some [] then none
        else
          let fr := fracPart.1.getD []
          let expPart : Bool × Int × List Char := match fracPart.2 with
            | 'e' :: r | 'E' :: r =>
              let se : Int × List Char := match r with
                | '+' :: rr => (1, rr)
                | '-' :: rr => (-1, rr)
                | _ => (1, r)
              let eds := jpSpanDigits se.2
              if eds.1 == [] then (false, 0, eds.2)
              else (true, se.1 * (digitsToNat eds.1 : Int), eds.2)
            | _ => (true, 0, fracPart.2)
          if expPart.1 then
            let mant : Int := (digitsToNat (intPart.1 ++ fr) : Int)
            some (.num (if signed.1 then -mant else mant) (expPart.2.1 - (fr.length : Int)),
                  expPart.2.2)
          else none
    else none

/-- Parsing mode: a single value, the items of an array (after `[`, at least
one item), or the members of an object (after `{`, at least one member). -/
inductive JPMode where
  | value
  | items
  | members
  deriving Repr, DecidableEq

/-- Intermediate parser output for each mode. -/
inductive JPOut where
  | val (v : Json)
  | items (vs : List Json)
  | members (fs : List (String × Json))
  deriving Repr

/-- The recursive-descent core of the `JSON.parse` model. -/
def jpRun : Nat → JPMode → List Char → Option (JPOut × List Char)
  | 0, _, _ => none
  | fuel + 1, .value, cs0 =>
    match jpSkipWs cs0 with
    | [] => none
    | c :: cs =>
      if c == '{' then
        match jpSkipWs cs with
        | '}' :: rest => some (.val (.obj []), rest)
        | cs2 =>
          match jpRun fuel .members cs2 with
          | some (.members fs, rest) => some (.val (.obj fs), rest)
          | _ => none
      else if c == '[' then
        match jpSkipWs cs with
        | ']' :: rest => some (.val (.arr []), rest)
        | cs2 =>
          match jpRun fuel .items cs2 with
          | some (.items vs, rest) => some (.val (.arr vs), rest)
          | _ => none
      else if c == '"' then
        match jpStringRest (cs.length + 1) cs with
        | some (l, rest) => some (.val (.str (String.mk l)), rest)
        | none => none
      else if c == 't' then
        match cs with
        | 'r' :: 'u' :: 'e' :: rest => some (.val (.bool true), rest)
        | _ => none
      else if c == 'f' then
        match cs with
        | 'a' :: 'l' :: 's' :: 'e' :: rest => some (.val (.bool false), rest)
        | _ => none
      else if c == 'n' then
        match cs with
        | 'u' :: 'l' :: 'l' :: rest => some (.val .null, rest)
        | _ => none
      else
        match jpNumber (c :: cs) with
        | some (v, rest) => some (.val v, rest)
        | none => none
  | fuel + 1, .items, cs =>
    match jpRun fuel .value cs with
    | some (.val v, rest) =>
      (match jpSkipWs rest with
       | ',' :: rest2 =>
         match jpRun fuel .items rest2 with
         | some (.items vs, r) => some (.items (v :: vs), r)
         | _ => none
       | ']' :: rest2 => some (.items [v], rest2)
       | _ => none)
    | _ => none
  | fuel + 1, .members, cs =>
    match jpSkipWs cs with
    | '"' :: cs1 =>
      match jpStringRest (cs1.length + 1) cs1 with
      | some (k, rest) =>
        (match jpSkipWs rest with
         | ':' :: rest2 =>
           match jpRun fuel .value rest2 with
           | some (.val v, rest3) =>
             (match jpSkipWs rest3 with
              | ',' :: rest4 =>
                match jpRun fuel .members rest4 with
                | some (.members fs, r) => some (.members ((String.mk k, v) :: fs), r)
                | _ => none
              | '}' :: rest4 => some (.members [(String.mk k, v)], rest4)
              | _ => none)
           | _ => none
         | _ => none)
      | none => none
    | _ => none

/-- Model of `JSON.parse`: parse one value and reject trailing garbage;
`none` models a thrown `SyntaxError`. -/
def jsonParse (s : String) : Option Json :=
  match jpRun (2 * s.length + 4) .value s.data with
  | some (.val v, rest) => if jpSkipWs rest = [] then some v else none
  | _ => none

/-! ## Fence stripping and classification (`renderAssistantMessage`) -/

/-- The trailing `.replace(/\s*` ++ "```" ++ `$/, "")` step of the fence
stripper: remove a final fence marker and any whitespace before it. -/
def stripClosingFence (l : List Char) : List Char :=
  if listEndsWith l ['`', '`', '`'] then listTrimRight (l.take (l.length - 3)) else l

/-- The fence-stripping preamble of `renderAssistantMessage` (lines 1349-1351):
trim, then if the text starts with a fenced-code marker (with or without the
`json` tag) remove the opening marker plus following whitespace and a trailing
closing marker plus preceding whitespace. -/
def stripFencesRAM (content : String) : String :=
  let c := listTrim content.data
  let r :=
    if listStartsWith c ['`', '`', '`', 'j', 's', 'o', 'n'] then
      stripClosingFence ((c.drop 7).dropWhile jsWs)
    else if listStartsWith c ['`', '`', '`'] then
      stripClosingFence ((c.drop 3).dropWhile jsWs)
    else c
  String.mk r

/-- The two view models `renderAssistantMessage` can produce. -/
inductive ReplyView where
  | plain (text : String)
  | structured (data : Json)
  deriving Repr

/-- Whether a view is the plain-text one. -/
def ReplyView.isPlain : ReplyView → Bool
  | .plain _ => true
  | .structured _ => false

/-- The classification performed by `renderAssistantMessage` (lines 1345-1374):
strip fences, attempt `JSON.parse`, set `parsedData` to `null` on an
exception, then branch on `if (!parsedData)` — i.e. on JavaScript truthiness
of the parsed value, not on its being an object. -/
def renderAssistantMessage_classify (content : String) : ReplyView :=
  match jsonParse (stripFencesRAM content) with
  | some v => if v.truthy then .structured v else .plain content
  | none => .plain content

/-! ## Date serialization (`Date#toISOString` / `new Date(string)`)

A JavaScript `Date` is an integer count of milliseconds since the Unix epoch.
`JSON.stringify` serializes it through `toISOString`
(`YYYY-MM-DDTHH:mm:ss.sssZ`) and `loadStoredSessionData` reconstructs it with
`new Date(string)`.  Both directions are implemented below over the
proleptic Gregorian calendar. -/

/-- Civil date from a day count relative to 1970-01-01 (proleptic Gregorian). -/
def civilFromDays (z0 : Int) : Int × Nat × Nat :=
  let z := z0 + 719468
  let era := z.fdiv 146097
  let doe := (z - era * 146097).toNat
  let yoe := (doe - doe / 1460 + doe / 36524 - doe / 146096) / 365
  let doy := doe - (365 * yoe + yoe / 4 - yoe / 100)
  let mp := (5 * doy + 2) / 153
  let d := doy - (153 * mp + 2) / 5 + 1
  let m := if mp < 10 then mp + 3 else mp - 9
  (era * 400 + yoe + (if m ≤ 2 then 1 else 0), m, d)

/-- Day count relative to 1970-01-01 from a civil date. -/
def daysFromCivil (y0 : Int) (m d : Nat) : Int :=
  let y := y0 - (if m ≤ 2 then 1 else 0)
  let era := y.fdiv 400
  let yoe := (y - era * 400).toNat
  let doy := (153 * (if m > 2 then m - 3 else m + 9) + 2) / 5 + d - 1
  let doe := yoe * 365 + yoe / 4 - yoe / 100 + doy
  era * 146097 + (doe : Int) - 719468

/-- Zero-pad a natural number to two digits. -/
def pad2 (n : Nat) : String :=
  if n < 10 then "0" ++ toString n else toString n

/-- Zero-pad a natural number to three digits. -/
def pad3 (n : Nat) : String :=
  if n < 10 then "00" ++ toString n
  else if n < 100 then "0" ++ toString n
  else toString n

/-- Zero-pad a natural number to four digits. -/
def pad4 (n : Nat) : String :=
  if n < 10 then "000" ++ toString n
  else if n < 100 then "00" ++ toString n
  else if n < 1000 then "0" ++ toString n
  else toString n

/-- Model of `Date#toISOString` on epoch milliseconds
(four-digit-year range, the one produced by `Date.now()`). -/
def formatISO (t : Int) : String :=
  let day := t.fdiv 86400000
  let msOfDay := (t - day * 86400000).toNat
  let ymd := civilFromDays day
  pad4 ymd.1.toNat ++ "-" ++ pad2 ymd.2.1 ++ "-" ++ pad2 ymd.2.2 ++ "T" ++
    pad2 (msOfDay / 3600000) ++ ":" ++ pad2 (msOfDay % 3600000 / 60000) ++ ":" ++
    pad2 (msOfDay % 60000 / 1000) ++ "." ++ pad3 (msOfDay % 1000) ++ "Z"

/-- Model of `new Date(s)` on strings in the exact `toISOString` layout:
fields are read positionally (`YYYY-MM-DDTHH:mm:ss.sssZ`). -/
def parseISO (s : String) : Int :=
  let cs := s.data
  let y := digitsToNat (cs.take 4)
  let mo := digitsToNat ((cs.drop 5).take 2)
  let d := digitsToNat ((cs.drop 8).take 2)
  let h := digitsToNat ((cs.drop 11).take 2)
  let mi := digitsToNat ((cs.drop 14).take 2)
  let se := digitsToNat ((cs.drop 17).take 2)
  let ms := digitsToNat ((cs.drop 20).take 3)
  daysFromCivil (y : Int) mo d * 86400000 +
    ((h * 3600000 + mi * 60000 + se * 1000 + ms : Nat) : Int)

/-- The serialize/deserialize round trip a message timestamp goes through:
`toISOString` at save time, `new Date` at load time. -/
def dateRoundtrip (t : Int) : Int :=
  parseISO (formatISO t)

/-! ## The exchange endpoint (`src/app/api/chat/route.ts`, `POST`) -/

/-- JavaScript `a || b` on optional strings: `undefined` and `""` are falsy. -/
def jsOrOpt (a b : Option String) : Option String :=
  match a with
  | some s => if s = "" then b else some s
  | none => b

/-- JavaScript truthiness of an optional string. -/
def strTruthy : Option String → Bool
  | some s => s != ""
  | none => false

/-- The request body fields the route reads (`question`, `message`,
`sessionId`, `overrideConfig.sessionId`). -/
structure ChatRequestBody where
  question : Option String
  message : Option String
  sessionId : Option String
  overrideSessionId : Option String
  deriving Repr, DecidableEq

/-- Outcome of the single upstream `fetch` to the question-answering service:
a response (status, whether the content type includes `application/json`, and
the four possible reply fields of its JSON body), an abort by the 3-minute
client-side timeout, a refused connection, or any other thrown error
(transport failure, body-parse failure). -/
inductive UpstreamOutcome where
  | response (status : Nat) (contentTypeJson : Bool)
      (text answer message resp : Option String)
  | abortError
  | connRefused
  | otherError
  deriving Repr, DecidableEq

/-- What the route returns, together with whether the upstream call was ever
attempted. -/
structure RouteResult where
  status : Nat
  message : Option String
  error : Option String
  networkAttempted : Bool
  deriving Repr, DecidableEq

/-- The `POST` handler of `src/app/api/chat/route.ts`, embedded over the
request body and the outcome of the upstream call. -/
def route_POST (userId : Option String) (body : ChatRequestBody)
    (upstream : UpstreamOutcome) : RouteResult :=
  if userId = none then
    { status := 401, message := none, error := none, networkAttempted := false }
  else
    let sessionId := jsOrOpt body.overrideSessionId body.sessionId
    if ¬ strTruthy sessionId then
      { status := 400, message := none, error := some "Session ID is required",
        networkAttempted := false }
    else
      match upstream with
      | .response status ctJson text answer message resp =>
        if ¬ (200 ≤ status ∧ status ≤ 299) then
          if status = 504 then
            { status := 200,
              message := some "The AI service is taking longer than expected to generate the comprehensive medical assessment. This can happen with complex ECDS v5.0 evaluations. Please try again, or consider breaking down your request into smaller parts.",
              error := some "Gateway timeout", networkAttempted := true }
          else if status = 503 then
            { status := 200,
              message := some "The AI service is temporarily unavailable. Please try again in a few minutes.",
              error := some "Service unavailable", networkAttempted := true }
          else
            { status := 200,
              message := some "I'm sorry, I'm having trouble processing your request right now. Please try again.",
              error := some ("API error: " ++ toString status), networkAttempted := true }
        else if ¬ ctJson then
          { status := 200,
            message := some "I received an unexpected response format. Please try rephrasing your question or try again later.",
            error := some "Invalid response format", networkAttempted := true }
        else
          { status := 200,
            message := some ((jsOrOpt text (jsOrOpt answer (jsOrOpt message resp))).getD
              "I'm sorry, I couldn't process your request."),
            error := none, networkAttempted := true }
      | .abortError =>
        { status := 200,
          message := some "The medical assessment took longer than 3 minutes to complete. This can happen with complex ECDS v5.0 evaluations. Please try again with a more specific question, or the service may be experiencing high demand.",
          error := some "Request timeout after 3 minutes", networkAttempted := true }
      | .connRefused =>
        { status := 200,
          message := some "I'm unable to connect to the AI service right now. Please try again later.",
          error := some "Connection refused", networkAttempted := true }
      | .otherError =>
        { status := 200,
          message := some "I'm experiencing technical difficulties. Please try again in a moment.",
          error := some "Network error", networkAttempted := true }

/-- The failure modes enumerated by the spec for the exchange client: non-2xx
upstream status, non-JSON content type, client-side timeout, or a
transport-level error. -/
def UpstreamOutcome.isFailureMode : UpstreamOutcome → Bool
  | .response status ctJson _ _ _ _ => ¬ (200 ≤ status ∧ status ≤ 299) || ¬ ctJson
  | .abortError => true
  | .connRefused => true
  | .otherError => true

/-! ## The identifier generator (`generateSessionId`, lines 1062-1066) -/

/-- The hex alphabet `"0123456789abcdef"` the generator draws from. -/
def sessionIdChars : List Char := "0123456789abcdef".data

/-- Model of `chars[Math.floor(Math.random() * chars.length)]`: one uniformly drawn
hex character.  The draw is modelled by a `Fin 16` value. -/
def sessionIdChar (r : Fin 16) : Char :=
  sessionIdChars.getD r.val ' '

/-- Model of `Array.from({ length: len }, () => chars[...]).join("")`: one group of
`len` independently drawn hex characters.  `randoms sec pos` models the
successive `Math.random()` draws. -/
def sessionIdGroup (randoms : Nat → Nat → Fin 16) (sec len : Nat) : List Char :=
  (List.range len).map (fun pos => sessionIdChar (randoms sec pos))

/-- Model of `Array.prototype.join("-")`. -/
def joinHyphen : List (List Char) → List Char
  | [] => []
  | [g] => g
  | g :: gs => g ++ '-' :: joinHyphen gs

/-- The section lengths `[8, 4, 4, 4, 12]`. -/
def sessionIdSections : List Nat := [8, 4, 4, 4, 12]

/-- The generator `generateSessionId`: five groups of freshly drawn hex characters joined
by `-`. -/
def generateSessionId (randoms : Nat → Nat → Fin 16) : String :=
  String.mk (joinHyphen (sessionIdSections.enum.map
    (fun p => sessionIdGroup randoms p.1 p.2)))

/-! ## Data model (`Message`, `Session`, `StoredSessionData`) -/

/-- Message roles. -/
inductive Role where
  | user
  | assistant
  deriving Repr, DecidableEq

/-- The `interface Message` of line 849; the `Date` timestamp is epoch ms. -/
structure Message where
  id : String
  content : String
  role : Role
  timestamp : Int
  sessionId : String
  deriving Repr, DecidableEq

/-- The `interface Session` of line 856; `timestamp` is already a string
(`new Date().toISOString()`). -/
structure Session where
  id : String
  title : String
  active : Bool
  lastMessage : Option String
  timestamp : String
  messageCount : Nat
  deriving Repr, DecidableEq

/-- A message as it sits in `localStorage`: its timestamp serialized to the
ISO string form. -/
structure StoredMessage where
  id : String
  content : String
  role : Role
  timestamp : String
  sessionId : String
  deriving Repr, DecidableEq

/-- A JavaScript-object map from session ids, modelled as an insertion-ordered
association list with unique keys. -/
abbrev ObjMap (α : Type) : Type := List (String × α)

/-- Lookup `m[k]` (as `m[k] || default` call sites use it through `getD`). -/
def mapGet {α : Type} (m : ObjMap α) (k : String) : Option α :=
  (m.find? (fun p => p.1 == k)).map (fun p => p.2)

/-- Update `{ ...m, [k]: v }`: replace in place if the key exists (JavaScript keeps
the original insertion position), otherwise append. -/
def mapSet {α : Type} (m : ObjMap α) (k : String) (v : α) : ObjMap α :=
  if m.any (fun p => p.1 == k) then
    m.map (fun p => if p.1 == k then (k, v) else p)
  else m ++ [(k, v)]

/-- Deletion `delete m[k]`. -/
def mapDel {α : Type} (m : ObjMap α) (k : String) : ObjMap α :=
  m.filter (fun p => !(p.1 == k))

/-- The `interface StoredSessionData` of line 864 after date reconstruction:
message timestamps are epoch ms. -/
structure StoredSessionData where
  sessions : List Session
  messagesBySession : ObjMap (List Message)
  currentSessionId : String
  deriving Repr, DecidableEq

/-- The serialized blob under the `"chatSessionData"` key: message timestamps
are ISO strings. -/
structure StoredRaw where
  sessions : List Session
  messagesBySession : ObjMap (List StoredMessage)
  currentSessionId : String
  deriving Repr, DecidableEq

/-- The partial update accepted by `saveSessionData`. -/
structure SavePatch where
  sessions : Option (List Session)
  messagesBySession : Option (ObjMap (List Message))
  currentSessionId : Option String
  deriving Repr, DecidableEq

/-- Effect of `JSON.stringify` on one message (the `Date` goes through `toISOString`). -/
def serializeMessage (m : Message) : StoredMessage :=
  { id := m.id, content := m.content, role := m.role,
    timestamp := formatISO m.timestamp, sessionId := m.sessionId }

/-- Date reconstruction on one message (`new Date(msg.timestamp)`). -/
def deserializeMessage (m : StoredMessage) : Message :=
  { id := m.id, content := m.content, role := m.role,
    timestamp := parseISO m.timestamp, sessionId := m.sessionId }

/-- Serialize every message list in the map. -/
def serializeMbs (m : ObjMap (List Message)) : ObjMap (List StoredMessage) :=
  m.map (fun p => (p.1, p.2.map serializeMessage))

/-- Reconstruct every message list in the map. -/
def deserializeMbs (m : ObjMap (List StoredMessage)) : ObjMap (List Message) :=
  m.map (fun p => (p.1, p.2.map deserializeMessage))

/-- Effect of `JSON.stringify` on the whole store. -/
def serializeStore (d : StoredSessionData) : StoredRaw :=
  { sessions := d.sessions, messagesBySession := serializeMbs d.messagesBySession,
    currentSessionId := d.currentSessionId }

/-- Effect of `JSON.parse` plus per-message date reconstruction on the whole store. -/
def deserializeStore (r : StoredRaw) : StoredSessionData :=
  { sessions := r.sessions, messagesBySession := deserializeMbs r.messagesBySession,
    currentSessionId := r.currentSessionId }

/-- The loader `loadStoredSessionData` (lines 1068-1084): read the blob if present,
parse it and reconstruct message timestamps; `none` when absent. -/
def loadStoredSessionData (storage : Option StoredRaw) : Option StoredSessionData :=
  storage.map deserializeStore

/-- The synthesized empty default used when nothing is stored. -/
def emptyStoredData : StoredSessionData :=
  { sessions := [], messagesBySession := [], currentSessionId := "" }

/-- The saver `saveSessionData` (lines 1086-1092): load current state (or the empty
default), shallow-merge the patch over it, write the whole back. -/
def saveSessionData (storage : Option StoredRaw) (patch : SavePatch) : Option StoredRaw :=
  let currentData := (loadStoredSessionData storage).getD emptyStoredData
  some (serializeStore
    { sessions := patch.sessions.getD currentData.sessions,
      messagesBySession := patch.messagesBySession.getD currentData.messagesBySession,
      currentSessionId := patch.currentSessionId.getD currentData.currentSessionId })

/-! ## The component state and its transitions -/

/-- The `ChatInterface` component state relevant to the session registry,
together with the `localStorage` blob. -/
structure ChatState where
  messages : List Message
  input : String
  isLoading : Bool
  sessions : List Session
  currentSessionId : String
  messagesBySession : ObjMap (List Message)
  storage : Option StoredRaw
  deriving Repr, DecidableEq

/-- The `useState` initial values of the component (empty lists, empty
strings, not loading), with nothing yet in `localStorage`. -/
def initialChatState : ChatState :=
  { messages := [], input := "", isLoading := false, sessions := [],
    currentSessionId := "", messagesBySession := [], storage := none }

/-- Model of `String.prototype.trim` on a Lean string. -/
def jsTrim (s : String) : String :=
  String.mk (listTrim s.data)

/-- Truncation `s.slice(0, n)` plus an ellipsis when the string is longer than `n`. -/
def sliceEllipsis (s : String) (n : Nat) : String :=
  String.mk (s.data.take n) ++ (if s.data.length > n then "..." else "")

/-- The operation `createNewSession` (lines 1094-1110).  `newId` stands for the
`generateSessionId()` draw and `now` for the creation instant.  The deferred
`setTimeout(..., 0)` persistence reads the stored blob (not component state)
and is modelled as running before the next operation. -/
def createNewSession (newId : String) (now : Int) (st : ChatState) : ChatState :=
  let newSession : Session :=
    { id := newId, title := "New conversation", active := true,
      lastMessage := none, timestamp := formatISO now, messageCount := 0 }
  let currentData := (loadStoredSessionData st.storage).getD emptyStoredData
  { st with
    sessions := newSession :: st.sessions.map (fun s => { s with active := false }),
    messagesBySession := mapSet st.messagesBySession newId [],
    currentSessionId := newId,
    messages := [],
    storage := saveSessionData st.storage
      { sessions := some (newSession ::
          currentData.sessions.map (fun s => { s with active := false })),
        messagesBySession := some (mapSet currentData.messagesBySession newId []),
        currentSessionId := some newId } }

/-- The initialization effect (lines 1112-1133): restore the stored store when
it has a truthy current id and a non-empty session list (recomputing `active`
flags from the stored current id), otherwise create a fresh session. -/
def initComponent (freshId : String) (now : Int) (st : ChatState) : ChatState :=
  match loadStoredSessionData st.storage with
  | some stored =>
    if stored.currentSessionId ≠ "" ∧ stored.sessions ≠ [] then
      { st with
        currentSessionId := stored.currentSessionId,
        sessions := stored.sessions.map
          (fun s => { s with active := s.id == stored.currentSessionId }),
        messages := (mapGet stored.messagesBySession stored.currentSessionId).getD [],
        messagesBySession := stored.messagesBySession }
    else createNewSession freshId now st
  | none => createNewSession freshId now st

/-- The operation `switchToSession` (lines 1212-1223). -/
def switchToSession (sessionId : String) (st : ChatState) : ChatState :=
  if sessionId == st.currentSessionId then st
  else
    let sessionMessages := (mapGet st.messagesBySession sessionId).getD []
    let updatedSessions := st.sessions.map (fun s => { s with active := s.id == sessionId })
    { st with
      currentSessionId := sessionId,
      sessions := updatedSessions,
      messages := sessionMessages,
      storage := saveSessionData st.storage
        { sessions := some updatedSessions, messagesBySession := none,
          currentSessionId := some sessionId } }

/-- Model of `updatedSessions.map((s, i) => ({ ...s, active: i === 0 }))`. -/
def jsMapIdx {α β : Type} (f : Nat → α → β) : Nat → List α → List β
  | _, [] => []
  | i, x :: xs => f i x :: jsMapIdx f (i + 1) xs

/-- The operation `confirmDeleteSession` (lines 1228-1263) for the session with id
`deleteId`.  `freshId`/`now` feed the `createNewSession` call of the
last-session branch. -/
def confirmDeleteSession (deleteId freshId : String) (now : Int) (st : ChatState) : ChatState :=
  let updatedSessions := st.sessions.filter (fun s => !(s.id == deleteId))
  let updatedMbs := mapDel st.messagesBySession deleteId
  let st1 := { st with sessions := updatedSessions, messagesBySession := updatedMbs }
  if deleteId == st.currentSessionId then
    match updatedSessions with
    | first :: _ =>
      let finalSessions := jsMapIdx (fun i s => { s with active := i == 0 }) 0 updatedSessions
      { st1 with
        currentSessionId := first.id,
        messages := (mapGet updatedMbs first.id).getD [],
        sessions := finalSessions,
        storage := some (serializeStore
          { sessions := finalSessions, messagesBySession := updatedMbs,
            currentSessionId := first.id }) }
    | [] =>
      createNewSession freshId now { st1 with storage := none }
  else
    { st1 with
      storage := some (serializeStore
        { sessions := updatedSessions, messagesBySession := updatedMbs,
          currentSessionId := st.currentSessionId }) }

/-- Typing into the input field (`setInput(e.target.value)`). -/
def setInputText (text : String) (st : ChatState) : ChatState :=
  { st with input := text }

/-- What the `handleSubmit` closure captured at submission time and still
holds when the awaited reply arrives: the render-time `currentSessionId`,
`sessions` and `messagesBySession` (state snapshots), plus the locals
`currentInput` and `updatedMessagesWithUser`. -/
structure PendingExchange where
  sessionId : String
  currentInput : String
  updatedMessagesWithUser : List Message
  snapshotSessions : List Session
  snapshotMessagesBySession : ObjMap (List Message)
  deriving Repr, DecidableEq

/-- Result of `await fetch("/api/chat", ...)` as seen by `handleSubmit`:
either a 2xx response whose body carries `data.message`, or anything that
lands in the `catch` (non-ok status, network failure, body-parse failure). -/
inductive FetchResult where
  | ok (message : String)
  | error
  deriving Repr, DecidableEq

/-- Phase 1 of `handleSubmit` (lines 1135-1158): the guard, the optimistic
append of the user message, and the capture of the closure snapshot; `none`
means no request was issued. -/
def handleSubmit_start (now : Int) (st : ChatState) : ChatState × Option PendingExchange :=
  if jsTrim st.input = "" ∨ st.isLoading ∨ st.currentSessionId = "" then (st, none)
  else
    let trimmed := jsTrim st.input
    let userMessage : Message :=
      { id := "user_" ++ toString now, content := trimmed, role := .user,
        timestamp := now, sessionId := st.currentSessionId }
    let currentMessages := (mapGet st.messagesBySession st.currentSessionId).getD []
    let updatedMessagesWithUser := currentMessages ++ [userMessage]
    ({ st with
        input := "",
        messages := updatedMessagesWithUser,
        messagesBySession := mapSet st.messagesBySession st.currentSessionId
          updatedMessagesWithUser,
        isLoading := true },
     some { sessionId := st.currentSessionId, currentInput := trimmed,
            updatedMessagesWithUser := updatedMessagesWithUser,
            snapshotSessions := st.sessions,
            snapshotMessagesBySession := st.messagesBySession })

/-- The sentinel title. -/
def sentinelTitle : String := "New conversation"

/-- Phase 2 of `handleSubmit` (lines 1159-1207): the continuation that runs
when the awaited exchange settles, operating on the captured snapshot, with
`st` whatever the component state is by then. -/
def handleSubmit_finish (now : Int) (res : FetchResult) (p : PendingExchange)
    (st : ChatState) : ChatState :=
  match res with
  | .ok replyText =>
    let assistantMessage : Message :=
      { id := "assistant_" ++ toString now, content := replyText, role := .assistant,
        timestamp := now, sessionId := p.sessionId }
    let finalMessages := p.updatedMessagesWithUser ++ [assistantMessage]
    let finalMbs := mapSet p.snapshotMessagesBySession p.sessionId finalMessages
    let foundTitle :=
      (p.snapshotSessions.find? (fun ss => ss.id == p.sessionId)).map Session.title
    let newTitle :=
      if foundTitle = some sentinelTitle then sliceEllipsis p.currentInput 30
      else (jsOrOpt foundTitle (some sentinelTitle)).getD sentinelTitle
    let updatedSessions := p.snapshotSessions.map (fun s =>
      if s.id == p.sessionId then
        { s with
          messageCount := finalMessages.length,
          lastMessage := some (sliceEllipsis p.currentInput 50),
          timestamp := formatISO now,
          title := newTitle }
      else s)
    { st with
      messages := finalMessages,
      messagesBySession := finalMbs,
      sessions := updatedSessions,
      isLoading := false,
      storage := saveSessionData st.storage
        { sessions := some updatedSessions, messagesBySession := some finalMbs,
          currentSessionId := some p.sessionId } }
  | .error =>
    let errorMessage : Message :=
      { id := "error_" ++ toString now,
        content := "I'm sorry, I encountered an error. Please try again.",
        role := .assistant, timestamp := now, sessionId := p.sessionId }
    let messagesWithError := p.updatedMessagesWithUser ++ [errorMessage]
    let errorMbs := mapSet p.snapshotMessagesBySession p.sessionId messagesWithError
    { st with
      messages := messagesWithError,
      messagesBySession := errorMbs,
      isLoading := false,
      storage := saveSessionData st.storage
        { sessions := none, messagesBySession := some errorMbs,
          currentSessionId := none } }

/-! ## Helper lemmas -/

lemma sessionIdChar_mem : ∀ r : Fin 16, sessionIdChar r ∈ sessionIdChars := by decide

lemma sessionIdGroup_mem (randoms : Nat → Nat → Fin 16) (sec len : Nat) :
    ∀ c ∈ sessionIdGroup randoms sec len, c ∈ sessionIdChars := by
  intro c hc
  simp only [sessionIdGroup, List.mem_map] at hc
  obtain ⟨pos, -, rfl⟩ := hc
  exact sessionIdChar_mem _

lemma sessionIdGroup_length (randoms : Nat → Nat → Fin 16) (sec len : Nat) :
    (sessionIdGroup randoms sec len).length = len := by
  simp [sessionIdGroup]

/-! ## Claim theorems -/

/-- C9: every call to the identifier generator returns a 36-character string of
five groups of lowercase hexadecimal characters joined by `-`, with group
lengths exactly 8, 4, 4, 4 and 12. -/
theorem generateSessionId_shape (randoms : Nat → Nat → Fin 16) :
    ∃ g1 g2 g3 g4 g5 : List Char,
      (generateSessionId randoms).data =
        g1 ++ '-' :: (g2 ++ '-' :: (g3 ++ '-' :: (g4 ++ '-' :: g5))) ∧
      g1.length = 8 ∧ g2.length = 4 ∧ g3.length = 4 ∧ g4.length = 4 ∧ g5.length = 12 ∧
      (∀ c, c ∈ g1 ++ g2 ++ g3 ++ g4 ++ g5 → c ∈ sessionIdChars) ∧
      (generateSessionId randoms).data.length = 36 := by
  refine ⟨sessionIdGroup randoms 0 8, sessionIdGroup randoms 1 4, sessionIdGroup randoms 2 4,
    sessionIdGroup randoms 3 4, sessionIdGroup randoms 4 12, rfl,
    sessionIdGroup_length randoms 0 8, sessionIdGroup_length randoms 1 4,
    sessionIdGroup_length randoms 2 4, sessionIdGroup_length randoms 3 4,
    sessionIdGroup_length randoms 4 12, ?_, ?_⟩
  · intro c hc
    simp only [List.mem_append] at hc
    rcases hc with ((((hc | hc) | hc) | hc) | hc) <;>
      exact sessionIdGroup_mem randoms _ _ c hc
  · show (sessionIdGroup randoms 0 8 ++ '-' :: (sessionIdGroup randoms 1 4 ++ '-' ::
      (sessionIdGroup randoms 2 4 ++ '-' :: (sessionIdGroup randoms 3 4 ++ '-' ::
        sessionIdGroup randoms 4 12)))).length = 36
    simp [sessionIdGroup_length]

/-- C10: while an exchange is in flight (`isLoading`), and likewise when the
trimmed input is empty or no session is current, submission is a complete
no-op: the state is unchanged and no request is issued. -/
theorem handleSubmit_guard (now : Int) (st : ChatState)
    (h : st.isLoading = true ∨ jsTrim st.input = "" ∨ st.currentSessionId = "") :
    handleSubmit_start now st = (st, none) := by
  unfold handleSubmit_start
  rw [if_pos]
  rcases h with h | h | h
  · exact Or.inr (Or.inl h)
  · exact Or.inl h
  · exact Or.inr (Or.inr h)

/-- Witness for `handleSubmit_guard`: a loading state with non-empty input and
a current session, on which submission changes nothing. -/
theorem handleSubmit_guard_witness :
    handleSubmit_start 5
        { initialChatState with isLoading := true, input := "hi", currentSessionId := "aaa" } =
      ({ initialChatState with isLoading := true, input := "hi", currentSessionId := "aaa" },
        none) :=
  handleSubmit_guard 5 _ (Or.inl rfl)

/-- C8: deleting a session that is not the active one leaves the current
session id and the displayed message list unchanged, removes exactly the
deleted session's entry from the session list and from the message map, and
keeps every other session untouched. -/
theorem delete_nonactive_frame (deleteId freshId : String) (now : Int) (st : ChatState)
    (h : deleteId ≠ st.currentSessionId) :
    (confirmDeleteSession deleteId freshId now st).currentSessionId = st.currentSessionId ∧
    (confirmDeleteSession deleteId freshId now st).messages = st.messages ∧
    (confirmDeleteSession deleteId freshId now st).sessions =
      st.sessions.filter (fun s => !(s.id == deleteId)) ∧
    (confirmDeleteSession deleteId freshId now st).messagesBySession =
      mapDel st.messagesBySession deleteId ∧
    ∀ s ∈ st.sessions, s.id ≠ deleteId →
      s ∈ (confirmDeleteSession deleteId freshId now st).sessions := by
  unfold confirmDeleteSession
  rw [if_neg (by simpa using h)]
  refine ⟨rfl, rfl, rfl, rfl, ?_⟩
  intro s hs hne
  simp only [List.mem_filter]
  exact ⟨hs, by simpa using hne⟩

/-- Witness for `delete_nonactive_frame`: deleting session `"bbb"` while
`"aaa"` is active. -/
theorem delete_nonactive_frame_witness :
    (confirmDeleteSession "bbb" "zzz" 7
        { initialChatState with
            currentSessionId := "aaa",
            sessions := [{ id := "aaa", title := "A", active := true, lastMessage := none,
                           timestamp := "t", messageCount := 0 },
                         { id := "bbb", title := "B", active := false, lastMessage := none,
                           timestamp := "t", messageCount := 0 }],
            messagesBySession := [("aaa", []), ("bbb", [])] }).currentSessionId = "aaa" ∧
    (confirmDeleteSession "bbb" "zzz" 7
        { initialChatState with
            currentSessionId := "aaa",
            sessions := [{ id := "aaa", title := "A", active := true, lastMessage := none,
                           timestamp := "t", messageCount := 0 },
                         { id := "bbb", title := "B", active := false, lastMessage := none,
                           timestamp := "t", messageCount := 0 }],
            messagesBySession := [("aaa", []), ("bbb", [])] }).messagesBySession =
      [("aaa", [])] := by
  have h := delete_nonactive_frame "bbb" "zzz" 7
    { initialChatState with
        currentSessionId := "aaa",
        sessions := [{ id := "aaa", title := "A", active := true, lastMessage := none,
                       timestamp := "t", messageCount := 0 },
                     { id := "bbb", title := "B", active := false, lastMessage := none,
                       timestamp := "t", messageCount := 0 }],
        messagesBySession := [("aaa", []), ("bbb", [])] } (by decide)
  exact ⟨h.1, by rw [h.2.2.2.1]; decide⟩

/-- C6: for an authenticated caller, the route's only hard failure is a
missing (or empty) session id, rejected with status 400 before any upstream
attempt; every enumerated failure mode — non-2xx upstream status, non-JSON
content type, the client-side timeout, or a transport-level error — yields
status 200 with a non-empty user-presentable message. -/
theorem route_POST_failure_modes (uid : String) (body : ChatRequestBody)
    (up : UpstreamOutcome) :
    (strTruthy (jsOrOpt body.overrideSessionId body.sessionId) = false →
      (route_POST (some uid) body up).status = 400 ∧
      (route_POST (some uid) body up).networkAttempted = false) ∧
    (strTruthy (jsOrOpt body.overrideSessionId body.sessionId) = true →
      up.isFailureMode = true →
      (route_POST (some uid) body up).status = 200 ∧
      (route_POST (some uid) body up).networkAttempted = true ∧
      ∃ m, (route_POST (some uid) body up).message = some m ∧ m ≠ "") := by
  constructor
  · intro hfalse
    unfold route_POST
    rw [if_neg (by simp)]
    rw [if_pos (by simp [hfalse])]
    exact ⟨rfl, rfl⟩
  · intro htrue hfail
    unfold route_POST
    rw [if_neg (by simp)]
    rw [if_neg (by simp [htrue])]
    rcases up with ⟨status, ctJson, text, answer, message, resp⟩ | _ | _ | _
    · simp only [UpstreamOutcome.isFailureMode, Bool.or_eq_true, decide_eq_true_eq] at hfail
      dsimp only
      by_cases hok : 200 ≤ status ∧ status ≤ 299
      · have hct : ctJson = false := by
          rcases hfail with hfail | hfail
          · exact absurd hok (by simpa using hfail)
          · simpa using hfail
        rw [if_neg (by simpa using hok), if_pos (by simp [hct])]
        exact ⟨rfl, rfl, _, rfl, by decide⟩
      · rw [if_pos (by simpa using hok)]
        by_cases h504 : status = 504
        · rw [if_pos h504]; exact ⟨rfl, rfl, _, rfl, by decide⟩
        · rw [if_neg h504]
          by_cases h503 : status = 503
          · rw [if_pos h503]; exact ⟨rfl, rfl, _, rfl, by decide⟩
          · rw [if_neg h503]; exact ⟨rfl, rfl, _, rfl, by decide⟩
    · exact ⟨rfl, rfl, _, rfl, by decide⟩
    · exact ⟨rfl, rfl, _, rfl, by decide⟩
    · exact ⟨rfl, rfl, _, rfl, by decide⟩

/-- Witness for `route_POST_failure_modes`: a body without any session id is
rejected with 400 and no upstream attempt; the same body with a session id
under a timeout yields 200. -/
theorem route_POST_failure_modes_witness :
    (route_POST (some "user1")
        { question := some "q", message := none, sessionId := none,
          overrideSessionId := none } .abortError).status = 400 ∧
    (route_POST (some "user1")
        { question := some "q", message := none, sessionId := none,
          overrideSessionId := none } .abortError).networkAttempted = false ∧
    (route_POST (some "user1")
        { question := some "q", message := none, sessionId := some "sess",
          overrideSessionId := none } .abortError).status = 200 := by
  have h1 := (route_POST_failure_modes "user1"
    { question := some "q", message := none, sessionId := none,
      overrideSessionId := none } .abortError).1 (by decide)
  have h2 := (route_POST_failure_modes "user1"
    { question := some "q", message := none, sessionId := some "sess",
      overrideSessionId := none } .abortError).2 (by decide) (by decide)
  exact ⟨h1.1, h1.2, h2.1⟩

lemma deserialize_serialize_message (m : Message) :
    deserializeMessage (serializeMessage m) =
      { m with timestamp := dateRoundtrip m.timestamp } := rfl

lemma deserializeMbs_serializeMbs (m : ObjMap (List Message)) :
    deserializeMbs (serializeMbs m) =
      m.map (fun p => (p.1, p.2.map (fun msg =>
        { msg with timestamp := dateRoundtrip msg.timestamp }))) := by
  simp only [deserializeMbs, serializeMbs, List.map_map]
  apply List.map_congr_left
  intro p _
  simp only [Function.comp_apply, List.map_map]
  rfl

/-- C7: `save` followed by `load` returns the store unchanged — identical
sessions and current session id, identical per-session message lists — except
that each message timestamp has passed through the ISO-string round trip
(`dateRoundtrip`, serialization precision). -/
theorem save_load_roundtrip (storage : Option StoredRaw) (store : StoredSessionData) :
    loadStoredSessionData (saveSessionData storage
      { sessions := some store.sessions,
        messagesBySession := some store.messagesBySession,
        currentSessionId := some store.currentSessionId }) =
      some { sessions := store.sessions,
             messagesBySession := store.messagesBySession.map
               (fun p => (p.1, p.2.map (fun m =>
                 { m with timestamp := dateRoundtrip m.timestamp }))),
             currentSessionId := store.currentSessionId } := by
  simp only [saveSessionData, loadStoredSessionData, Option.map_some', Option.getD_some,
    deserializeStore, serializeStore, deserializeMbs_serializeMbs]

/-- The ISO round trip is the identity at millisecond precision on sample
instants (1970-01-01, 2009-02-13, 2023-11-14, a leap-year date). -/
theorem dateRoundtrip_samples :
    dateRoundtrip 0 = 0 ∧ dateRoundtrip 1234567890123 = 1234567890123 ∧
    dateRoundtrip 1700000000000 = 1700000000000 ∧
    dateRoundtrip 1709164800000 = 1709164800000 := by
  refine ⟨rfl, rfl, rfl, rfl⟩

/-- Spec test vector: a fenced clinical JSON reply is classified structured
with the expected parsed document. -/
theorem classify_fenced_migraine :
    renderAssistantMessage_classify
        "```json\n\x7b\"working_diagnosis\":\x7b\"primary\":\"Migraine\"\x7d\x7d\n```" =
      ReplyView.structured
        (Json.obj [("working_diagnosis", Json.obj [("primary", Json.str "Migraine")])]) := rfl

/-- Spec test vector: free text is classified plain, preserving the exact
string. -/
theorem classify_free_text :
    renderAssistantMessage_classify "Take two tablets and rest." =
      ReplyView.plain "Take two tablets and rest." := rfl

/-- Spec test vector: malformed JSON is classified plain (no exception
escapes). -/
theorem classify_malformed :
    renderAssistantMessage_classify "\x7bnot valid json" =
      ReplyView.plain "\x7bnot valid json" := rfl

/-- C1 counterexample: the reply `"[1, 2]"` parses successfully to a top-level
array — not an object — yet the classifier produces the structured view, because
the code branches on JavaScript truthiness (`if (!parsedData)`), not on the
value being an object. -/
theorem classify_array_counterexample :
    jsonParse (stripFencesRAM "[1, 2]") = some (Json.arr [Json.num 1 0, Json.num 2 0]) ∧
    (Json.arr [Json.num 1 0, Json.num 2 0]).isObj = false ∧
    renderAssistantMessage_classify "[1, 2]" =
      ReplyView.structured (Json.arr [Json.num 1 0, Json.num 2 0]) ∧
    (renderAssistantMessage_classify "[1, 2]").isPlain = false :=
  ⟨rfl, rfl, rfl, rfl⟩

/-- C1 (amended): the classifier yields the plain-text view exactly when JSON
parsing of the fence-stripped text fails or yields a JavaScript-falsy value
(`null`, `false`, `0`, `""`), and the structured view exactly when parsing
yields a truthy value — which includes every object, but also arrays, nonzero
numbers, nonempty strings and `true`. -/
theorem classify_characterization (content : String) :
    (renderAssistantMessage_classify content = ReplyView.plain content ↔
      (jsonParse (stripFencesRAM content) = none ∨
        ∃ v, jsonParse (stripFencesRAM content) = some v ∧ v.truthy = false)) ∧
    (∀ v, renderAssistantMessage_classify content = ReplyView.structured v ↔
      (jsonParse (stripFencesRAM content) = some v ∧ v.truthy = true)) := by
  rcases h : jsonParse (stripFencesRAM content) with - | v
  · have hclass : renderAssistantMessage_classify content = ReplyView.plain content := by
      unfold renderAssistantMessage_classify
      rw [h]
    constructor
    · rw [hclass]
      exact ⟨fun _ => Or.inl rfl, fun _ => rfl⟩
    · intro w
      rw [hclass]
      constructor
      · intro hc; cases hc
      · rintro ⟨hw, -⟩
        cases hw
  · by_cases ht : v.truthy = true
    · have hclass : renderAssistantMessage_classify content = ReplyView.structured v := by
        unfold renderAssistantMessage_classify
        rw [h]
        simp [ht]
      constructor
      · rw [hclass]
        constructor
        · intro hc; cases hc
        · rintro (hc | ⟨w, hw, hwt⟩)
          · cases hc
          · cases hw
            rw [ht] at hwt
            cases hwt
      · intro w
        rw [hclass]
        constructor
        · intro hw
          cases hw
          exact ⟨rfl, ht⟩
        · rintro ⟨hw, -⟩
          cases hw
          rfl
    · have ht' : v.truthy = false := by
        cases hb : v.truthy
        · rfl
        · exact absurd hb ht
      have hclass : renderAssistantMessage_classify content = ReplyView.plain content := by
        unfold renderAssistantMessage_classify
        rw [h]
        simp [ht']
      constructor
      · rw [hclass]
        exact ⟨fun _ => Or.inr ⟨v, rfl, ht'⟩, fun _ => rfl⟩
      · intro w
        rw [hclass]
        constructor
        · intro hc; cases hc
        · rintro ⟨hw, hwt⟩
          cases hw
          rw [ht'] at hwt
          cases hwt

lemma mapGet_replace_self {α : Type} (k : String) (v : α) :
    ∀ m : ObjMap α, m.any (fun p => p.1 == k) = true →
      mapGet (m.map (fun p => if p.1 == k then (k, v) else p)) k = some v := by
  intro m
  induction m with
  | nil => intro h; cases h
  | cons x m' ih =>
    intro h
    by_cases hx : (x.1 == k) = true
    · simp [mapGet, List.find?, hx]
    · have hx' : (x.1 == k) = false := by simpa using hx
      have hm' : m'.any (fun p => p.1 == k) = true := by simpa [hx'] using h
      simpa [mapGet, List.find?, hx'] using ih hm'

lemma mapGet_append_self {α : Type} (k : String) (v : α) :
    ∀ m : ObjMap α, m.any (fun p => p.1 == k) = false →
      mapGet (m ++ [(k, v)]) k = some v := by
  intro m
  induction m with
  | nil => intro _; simp [mapGet, List.find?]
  | cons x m' ih =>
    intro h
    simp only [List.any_cons, Bool.or_eq_false_iff] at h
    simp only [List.cons_append, mapGet, List.find?, h.1]
    exact ih h.2

lemma mapGet_mapSet_self {α : Type} (m : ObjMap α) (k : String) (v : α) :
    mapGet (mapSet m k v) k = some v := by
  unfold mapSet
  by_cases h : m.any (fun p => p.1 == k) = true
  · rw [if_pos h]
    exact mapGet_replace_self k v m h
  · rw [if_neg h]
    refine mapGet_append_self k v m ?_
    cases hb : m.any (fun p => p.1 == k)
    · rfl
    · exact absurd hb h

lemma mapGet_replace_ne {α : Type} (k tk : String) (v : α) (hne : k ≠ tk) :
    ∀ m : ObjMap α,
      mapGet (m.map (fun p => if p.1 == tk then (tk, v) else p)) k = mapGet m k := by
  intro m
  induction m with
  | nil => rfl
  | cons x m' ih =>
    by_cases hx : (x.1 == tk) = true
    · have hxval : x.1 = tk := by simpa using hx
      have htk : (tk == k) = false := by simp [Ne.symm hne]
      have hxk : (x.1 == k) = false := by simp [hxval, Ne.symm hne]
      simpa [mapGet, List.find?, hx, htk, hxk] using ih
    · have hx' : (x.1 == tk) = false := by simpa using hx
      by_cases hxk : (x.1 == k) = true
      · simp [mapGet, List.find?, hx', hxk]
      · have hxk' : (x.1 == k) = false := by simpa using hxk
        simpa [mapGet, List.find?, hx', hxk'] using ih

lemma mapGet_append_ne {α : Type} (k tk : String) (v : α) (hne : k ≠ tk) :
    ∀ m : ObjMap α, mapGet (m ++ [(tk, v)]) k = mapGet m k := by
  intro m
  induction m with
  | nil =>
    have htk : (tk == k) = false := by simp [Ne.symm hne]
    simp [mapGet, List.find?, htk]
  | cons x m' ih =>
    by_cases hxk : (x.1 == k) = true
    · simp [mapGet, List.find?, hxk]
    · have hxk' : (x.1 == k) = false := by simpa using hxk
      simpa [mapGet, List.find?, hxk'] using ih

lemma mapGet_mapSet_ne {α : Type} (m : ObjMap α) (k tk : String) (v : α) (hne : k ≠ tk) :
    mapGet (mapSet m tk v) k = mapGet m k := by
  unfold mapSet
  by_cases h : m.any (fun p => p.1 == tk) = true
  · rw [if_pos h]
    exact mapGet_replace_ne k tk v hne m
  · rw [if_neg h]
    exact mapGet_append_ne k tk v hne m

/-- C3: the pending exchange captures the submission-time session id and
message map, and its completion — successful or failed — appends the reply
under that captured id, leaving the list of whatever session is displayed at
completion time exactly as it was in the captured snapshot, and leaving the
displayed session current. -/
theorem reply_filed_to_originating_session :
    (∀ (st : ChatState) (now1 : Int),
      ¬ jsTrim st.input = "" → st.isLoading = false → ¬ st.currentSessionId = "" →
      ∃ p : PendingExchange,
        (handleSubmit_start now1 st).2 = some p ∧
        p.sessionId = st.currentSessionId ∧
        p.snapshotMessagesBySession = st.messagesBySession) ∧
    (∀ (p : PendingExchange) (st2 : ChatState) (now2 : Int) (res : FetchResult),
      st2.currentSessionId ≠ p.sessionId →
      ∃ reply : Message,
        reply.role = Role.assistant ∧
        reply.sessionId = p.sessionId ∧
        mapGet (handleSubmit_finish now2 res p st2).messagesBySession p.sessionId =
          some (p.updatedMessagesWithUser ++ [reply]) ∧
        mapGet (handleSubmit_finish now2 res p st2).messagesBySession st2.currentSessionId =
          mapGet p.snapshotMessagesBySession st2.currentSessionId ∧
        (handleSubmit_finish now2 res p st2).currentSessionId = st2.currentSessionId) := by
  constructor
  · intro st now1 h1 h2 h3
    have hcond : ¬ (jsTrim st.input = "" ∨ st.isLoading ∨ st.currentSessionId = "") := by
      rintro (hc | hc | hc)
      · exact h1 hc
      · rw [h2] at hc; cases hc
      · exact h3 hc
    unfold handleSubmit_start
    rw [if_neg hcond]
    exact ⟨_, rfl, rfl, rfl⟩
  · intro p st2 now2 res hT
    cases res with
    | ok replyText =>
      refine ⟨{ id := "assistant_" ++ toString now2, content := replyText,
                role := .assistant, timestamp := now2, sessionId := p.sessionId },
        rfl, rfl, ?_, ?_, rfl⟩
      · exact mapGet_mapSet_self _ _ _
      · exact mapGet_mapSet_ne _ _ _ _ hT
    | error =>
      refine ⟨{ id := "error_" ++ toString now2,
                content := "I'm sorry, I encountered an error. Please try again.",
                role := .assistant, timestamp := now2, sessionId := p.sessionId },
        rfl, rfl, ?_, ?_, rfl⟩
      · exact mapGet_mapSet_self _ _ _
      · exact mapGet_mapSet_ne _ _ _ _ hT

/-- A two-session state about to submit in session `"aaa"`. -/
def c3Base : ChatState :=
  { initialChatState with
      input := "what dose?",
      currentSessionId := "aaa",
      sessions := [{ id := "aaa", title := "New conversation", active := true,
                     lastMessage := none, timestamp := "t0", messageCount := 0 },
                   { id := "bbb", title := "Other", active := false,
                     lastMessage := none, timestamp := "t0", messageCount := 0 }],
      messagesBySession := [("aaa", []), ("bbb", [])] }

/-- The submission in `"aaa"`. -/
def c3Start : ChatState × Option PendingExchange := handleSubmit_start 1000 c3Base

/-- The captured closure snapshot of that submission. -/
def c3Pending : PendingExchange :=
  c3Start.2.getD { sessionId := "", currentInput := "", updatedMessagesWithUser := [],
                   snapshotSessions := [], snapshotMessagesBySession := [] }

/-- The state after the user switches to `"bbb"` while the exchange is in
flight. -/
def c3AfterSwitch : ChatState := switchToSession "bbb" c3Start.1

/-- Witness for `reply_filed_to_originating_session`: submit in `"aaa"`,
switch to `"bbb"`, then the reply arrives — it is filed under `"aaa"`. -/
theorem reply_filed_witness :
    c3Pending.sessionId = "aaa" ∧
    c3AfterSwitch.currentSessionId = "bbb" ∧
    c3Start.2 = some c3Pending ∧
    ∃ reply : Message,
      reply.role = Role.assistant ∧
      reply.sessionId = c3Pending.sessionId ∧
      mapGet (handleSubmit_finish 2000 .error c3Pending c3AfterSwitch).messagesBySession
          c3Pending.sessionId = some (c3Pending.updatedMessagesWithUser ++ [reply]) ∧
      mapGet (handleSubmit_finish 2000 .error c3Pending c3AfterSwitch).messagesBySession
          c3AfterSwitch.currentSessionId =
        mapGet c3Pending.snapshotMessagesBySession c3AfterSwitch.currentSessionId ∧
      (handleSubmit_finish 2000 .error c3Pending c3AfterSwitch).currentSessionId =
        c3AfterSwitch.currentSessionId := by
  refine ⟨by decide, by decide, by decide, ?_⟩
  exact reply_filed_to_originating_session.2 c3Pending c3AfterSwitch 2000 .error (by decide)

/-- C4 (amended): a successful completion updates the originating session's
`messageCount`, `lastMessage` and `timestamp` and persists the updated
sessions list and message map together in one save; the error-placeholder
completion leaves session metadata untouched and persists only the updated
message map (the stored sessions list stays whatever was stored before). -/
theorem exchange_completion_persistence (st : ChatState) (p : PendingExchange) (now : Int) :
    (∀ replyText : String, ∀ s ∈ p.snapshotSessions, s.id = p.sessionId →
      ∃ s', s' ∈ (handleSubmit_finish now (.ok replyText) p st).sessions ∧
        s'.id = p.sessionId ∧
        s'.messageCount = p.updatedMessagesWithUser.length + 1 ∧
        s'.lastMessage = some (sliceEllipsis p.currentInput 50) ∧
        s'.timestamp = formatISO now ∧
        (handleSubmit_finish now (.ok replyText) p st).storage =
          some (serializeStore
            { sessions := (handleSubmit_finish now (.ok replyText) p st).sessions,
              messagesBySession :=
                (handleSubmit_finish now (.ok replyText) p st).messagesBySession,
              currentSessionId := p.sessionId })) ∧
    ((handleSubmit_finish now .error p st).sessions = st.sessions ∧
      ((handleSubmit_finish now .error p st).storage).map StoredRaw.sessions =
        some ((loadStoredSessionData st.storage).getD emptyStoredData).sessions ∧
      ((handleSubmit_finish now .error p st).storage).map StoredRaw.messagesBySession =
        some (serializeMbs (handleSubmit_finish now .error p st).messagesBySession)) := by
  constructor
  · intro replyText s hs hid
    have hbeq : (s.id == p.sessionId) = true := by simp [hid]
    refine ⟨_, List.mem_map.mpr ⟨s, hs, rfl⟩, ?_, ?_, ?_, ?_, ?_⟩
    · rw [if_pos hbeq]
      exact hid
    · rw [if_pos hbeq]
      simp
    · rw [if_pos hbeq]
    · rw [if_pos hbeq]
    · rfl
  · exact ⟨rfl, rfl, rfl⟩

/-- A one-session state, saved to storage as the code would have left it,
about to submit in session `"aaa"`. -/
def c4Base : ChatState :=
  { initialChatState with
      input := "hello doctor",
      currentSessionId := "aaa",
      sessions := [{ id := "aaa", title := "New conversation", active := true,
                     lastMessage := none, timestamp := "t0", messageCount := 0 }],
      messagesBySession := [("aaa", [])],
      storage := some
        { sessions := [{ id := "aaa", title := "New conversation", active := true,
                         lastMessage := none, timestamp := "t0", messageCount := 0 }],
          messagesBySession := [("aaa", [])], currentSessionId := "aaa" } }

/-- The submission in `"aaa"`. -/
def c4Start : ChatState × Option PendingExchange := handleSubmit_start 1000 c4Base

/-- Its captured snapshot. -/
def c4Pending : PendingExchange :=
  c4Start.2.getD { sessionId := "", currentInput := "", updatedMessagesWithUser := [],
                   snapshotSessions := [], snapshotMessagesBySession := [] }

/-- The state after the exchange fails and the error placeholder is appended. -/
def c4Final : ChatState := handleSubmit_finish 2000 .error c4Pending c4Start.1

/-- C4 counterexample: the exchange completes by appending the error
placeholder (two messages now in the session), yet `messageCount`,
`lastMessage` and `timestamp` are not updated, contradicting the claim that
every completion updates the originating session's metadata. -/
theorem c4_error_no_metadata_counterexample :
    c4Final.messages.map Message.role = [Role.user, Role.assistant] ∧
    c4Final.messages.map Message.content =
      ["hello doctor", "I'm sorry, I encountered an error. Please try again."] ∧
    c4Final.sessions.map Session.messageCount = [0] ∧
    c4Final.sessions.map Session.lastMessage = [none] ∧
    c4Final.sessions.map Session.timestamp = ["t0"] ∧
    (c4Final.storage).map StoredRaw.sessions =
      some [{ id := "aaa", title := "New conversation", active := true,
              lastMessage := none, timestamp := "t0", messageCount := 0 }] := by
  refine ⟨by decide, by decide, by decide, by decide, by decide, by decide⟩

/-- Witness for `exchange_completion_persistence`: a concrete successful
completion updating the metadata and saving sessions, map and current id
together. -/
theorem exchange_completion_persistence_witness :
    ∃ s', s' ∈ (handleSubmit_finish 2000 (.ok "the answer") c4Pending c4Start.1).sessions ∧
      s'.id = c4Pending.sessionId ∧
      s'.messageCount = c4Pending.updatedMessagesWithUser.length + 1 ∧
      s'.lastMessage = some (sliceEllipsis c4Pending.currentInput 50) ∧
      s'.timestamp = formatISO 2000 ∧
      (handleSubmit_finish 2000 (.ok "the answer") c4Pending c4Start.1).storage =
        some (serializeStore
          { sessions := (handleSubmit_finish 2000 (.ok "the answer") c4Pending c4Start.1).sessions,
            messagesBySession :=
              (handleSubmit_finish 2000 (.ok "the answer") c4Pending c4Start.1).messagesBySession,
            currentSessionId := c4Pending.sessionId }) :=
  (exchange_completion_persistence c4Start.1 c4Pending 2000).1 "the answer"
    { id := "aaa", title := "New conversation", active := true,
      lastMessage := none, timestamp := "t0", messageCount := 0 }
    (by decide) (by decide)

lemma find?_by_id (k : String) :
    ∀ l : List Session, (l.map Session.id).Nodup →
      ∀ s ∈ l, s.id = k → l.find? (fun ss => ss.id == k) = some s := by
  intro l
  induction l with
  | nil => intro _ s hs; cases hs
  | cons x tl ih =>
    intro hnd s hs hid
    rw [List.map_cons, List.nodup_cons] at hnd
    rcases List.mem_cons.mp hs with rfl | hs'
    · have hb : (s.id == k) = true := by simp [hid]
      simp [List.find?, hb]
    · have hxk : (x.id == k) = false := by
        by_contra hcon
        have hxk' : x.id = k := by
          cases hb : (x.id == k)
          · exact absurd hb hcon
          · simpa using hb
        apply hnd.1
        rw [hxk', ← hid]
        exact List.mem_map.mpr ⟨s, hs', rfl⟩
      simp only [List.find?, hxk]
      exact ih hnd.2 s hs' hid

/-- A fresh single-session state (session `"aaa"`). -/
def c5St1 : ChatState := initComponent "aaa" 0 initialChatState

/-- First exchange: submit `"first question"`; the upstream call fails. -/
def c5Start1 : ChatState × Option PendingExchange :=
  handleSubmit_start 1000 (setInputText "first question" c5St1)

/-- Its captured snapshot. -/
def c5Pend1 : PendingExchange :=
  c5Start1.2.getD { sessionId := "", currentInput := "", updatedMessagesWithUser := [],
                    snapshotSessions := [], snapshotMessagesBySession := [] }

/-- State after the failed first exchange. -/
def c5St2 : ChatState := handleSubmit_finish 2000 .error c5Pend1 c5Start1.1

/-- Second exchange: submit `"second question"`; the upstream call succeeds. -/
def c5Start2 : ChatState × Option PendingExchange :=
  handleSubmit_start 3000 (setInputText "second question" c5St2)

/-- Its captured snapshot. -/
def c5Pend2 : PendingExchange :=
  c5Start2.2.getD { sessionId := "", currentInput := "", updatedMessagesWithUser := [],
                    snapshotSessions := [], snapshotMessagesBySession := [] }

/-- Final state after the successful second exchange. -/
def c5Final : ChatState := handleSubmit_finish 4000 (.ok "the answer") c5Pend2 c5Start2.1

/-- C5 counterexample: when the first exchange fails and the second succeeds,
the title is set from the *second* user message, not the first user message of
the session as the claim states. -/
theorem c5_title_not_first_message_counterexample :
    (((mapGet c5Final.messagesBySession "aaa").getD []).filter
        (fun m => m.role == Role.user)).map Message.content =
      ["first question", "second question"] ∧
    c5Final.sessions.map Session.title = ["second question"] ∧
    sliceEllipsis "first question" 30 = "first question" ∧
    ("second question" : String) ≠ "first question" := by
  refine ⟨by decide, by decide, by decide, by decide⟩

/-- C5 (amended): a session's title is changed only by a successful exchange
and only while it equals the sentinel `"New conversation"`; it is then set to
the first 30 characters (plus ellipsis if longer) of that exchange's
triggering user message — the trigger of the first *successful* exchange, not
necessarily the first user message.  Failed exchanges change no title, other
sessions' titles are never touched, and a title differing from the sentinel is
never overwritten (an empty title is reset to the sentinel). -/
theorem title_update_rule (st : ChatState) (p : PendingExchange) (now : Int)
    (replyText : String) (hnd : (p.snapshotSessions.map Session.id).Nodup) :
    ((handleSubmit_finish now .error p st).sessions = st.sessions) ∧
    (∀ s ∈ p.snapshotSessions, s.id ≠ p.sessionId →
      s ∈ (handleSubmit_finish now (.ok replyText) p st).sessions) ∧
    (∀ s ∈ p.snapshotSessions, s.id = p.sessionId →
      ∃ s', s' ∈ (handleSubmit_finish now (.ok replyText) p st).sessions ∧
        s'.id = p.sessionId ∧
        s'.title = (if s.title = sentinelTitle then sliceEllipsis p.currentInput 30
                    else if s.title = "" then sentinelTitle else s.title)) := by
  refine ⟨rfl, ?_, ?_⟩
  · intro s hs hne
    have hb : (s.id == p.sessionId) = false := by simp [hne]
    exact List.mem_map.mpr ⟨s, hs, by rw [if_neg (by simp [hb])]⟩
  · intro s hs hid
    have hbeq : (s.id == p.sessionId) = true := by simp [hid]
    have hfind : p.snapshotSessions.find? (fun ss => ss.id == p.sessionId) = some s :=
      find?_by_id p.sessionId p.snapshotSessions hnd s hs hid
    refine ⟨_, List.mem_map.mpr ⟨s, hs, rfl⟩, ?_, ?_⟩
    · rw [if_pos hbeq]
      exact hid
    · rw [if_pos hbeq]
      show (if ((p.snapshotSessions.find? (fun ss => ss.id == p.sessionId)).map
              Session.title) = some sentinelTitle then sliceEllipsis p.currentInput 30
            else (jsOrOpt ((p.snapshotSessions.find? (fun ss => ss.id == p.sessionId)).map
              Session.title) (some sentinelTitle)).getD sentinelTitle) = _
      rw [hfind]
      by_cases hsent : s.title = sentinelTitle
      · rw [if_pos (by rw [Option.map_some', hsent]), if_pos hsent]
      · rw [if_neg (by
          rw [Option.map_some']
          intro hcon
          exact hsent (Option.some_inj.mp hcon)), if_neg hsent]
        by_cases hemp : s.title = ""
        · rw [if_pos hemp]
          simp [jsOrOpt, hemp]
        · rw [if_neg hemp]
          simp [jsOrOpt, hemp]

/-- Witness for `title_update_rule`: in the concrete two-exchange scenario the
failed exchange leaves the sessions untouched, and the successful one replaces
the sentinel title of session `"aaa"` with its triggering message. -/
theorem title_update_rule_witness :
    (handleSubmit_finish 2000 .error c5Pend1 c5Start1.1).sessions = c5Start1.1.sessions ∧
    (∃ s', s' ∈ (handleSubmit_finish 4000 (.ok "the answer") c5Pend2 c5Start2.1).sessions ∧
      s'.id = c5Pend2.sessionId ∧
      s'.title = (if sentinelTitle = sentinelTitle then sliceEllipsis c5Pend2.currentInput 30
                  else if sentinelTitle = "" then sentinelTitle else sentinelTitle)) := by
  constructor
  · exact (title_update_rule c5Start1.1 c5Pend1 2000 "unused" (by decide)).1
  · have h := (title_update_rule c5Start2.1 c5Pend2 4000 "the answer" (by decide)).2.2
      { id := "aaa", title := sentinelTitle, active := true, lastMessage := none,
        timestamp := "1970-01-01T00:00:00.000Z", messageCount := 0 }
      (by decide) (by decide)
    exact h

/-! ## The session-registry invariant (C2) -/

/-- The registry operations quantified over by the claim, each carrying the
environment data it consumes: the freshly generated id and instant for
`createSession`, and those for the `createSession` call that deleting the
last session triggers. -/
inductive RegOp where
  | create (newId : String) (now : Int)
  | switch (sessionId : String)
  | delete (sessionId freshId : String) (now : Int)
  deriving Repr, DecidableEq

/-- Apply one registry operation. -/
def applyRegOp (st : ChatState) : RegOp → ChatState
  | .create newId now => createNewSession newId now st
  | .switch sessionId => switchToSession sessionId st
  | .delete sessionId freshId now => confirmDeleteSession sessionId freshId now st

/-- Environment constraints under which the operation is issued: a generated
id is never a reuse of a live one (the generator's contract), and the sidebar
only offers switching to a listed session. -/
def RegOpValid (st : ChatState) : RegOp → Bool
  | .create newId _ => !((st.sessions.map Session.id).any (fun i => i == newId))
  | .switch sessionId =>
      (st.sessions.map Session.id).any (fun i => i == sessionId) ||
        (sessionId == st.currentSessionId)
  | .delete _ _ _ => true

/-- Apply a sequence of registry operations. -/
def applyRegOps (st : ChatState) : List RegOp → ChatState
  | [] => st
  | op :: ops => applyRegOps (applyRegOp st op) ops

/-- Validity of a whole sequence, each operation judged in the state where it
runs. -/
def RegOpsValid (st : ChatState) : List RegOp → Bool
  | [] => true
  | op :: ops => RegOpValid st op && RegOpsValid (applyRegOp st op) ops

/-- The registry invariant: a non-empty session list with pairwise-distinct
ids, the current id naming a listed session, and `active` holding exactly on
the current session. -/
def SessionInvariant (st : ChatState) : Prop :=
  st.sessions ≠ [] ∧
  (st.sessions.map Session.id).Nodup ∧
  st.currentSessionId ∈ st.sessions.map Session.id ∧
  ∀ s ∈ st.sessions, s.active = (s.id == st.currentSessionId)

/-- Well-formedness of a stored blob that the restore branch of
initialization relies on (trivially true when nothing restorable is stored). -/
def StoredWF (storage : Option StoredRaw) : Prop :=
  match loadStoredSessionData storage with
  | none => True
  | some d =>
      d.currentSessionId ≠ "" → d.sessions ≠ [] →
        ((d.sessions.map Session.id).Nodup ∧
          d.currentSessionId ∈ d.sessions.map Session.id)

lemma map_id_set_active (l : List Session) (b : Bool) :
    (l.map (fun s => { s with active := b })).map Session.id = l.map Session.id := by
  rw [List.map_map]
  rfl

lemma createNewSession_inv (newId : String) (now : Int) (st : ChatState)
    (hnd : (st.sessions.map Session.id).Nodup)
    (hfresh : newId ∉ st.sessions.map Session.id) :
    SessionInvariant (createNewSession newId now st) := by
  refine ⟨by simp [createNewSession], ?_, ?_, ?_⟩
  · show (((⟨newId, "New conversation", true, none, formatISO now, 0⟩ : Session) ::
      st.sessions.map (fun s => { s with active := false })).map Session.id).Nodup
    rw [List.map_cons, map_id_set_active, List.nodup_cons]
    exact ⟨hfresh, hnd⟩
  · show newId ∈ (((⟨newId, "New conversation", true, none, formatISO now, 0⟩ : Session) ::
      st.sessions.map (fun s => { s with active := false })).map Session.id)
    simp
  · intro s hs
    rcases List.mem_cons.mp hs with rfl | hs'
    · simp [createNewSession]
    · obtain ⟨s0, hs0, rfl⟩ := List.mem_map.mp hs'
      have hs0ne : s0.id ≠ newId := fun he => hfresh (he ▸ List.mem_map.mpr ⟨s0, hs0, rfl⟩)
      show false = (s0.id == newId)
      simp [hs0ne]

lemma switchToSession_inv (sessionId : String) (st : ChatState)
    (hinv : SessionInvariant st)
    (hmem : sessionId ∈ st.sessions.map Session.id ∨ sessionId = st.currentSessionId) :
    SessionInvariant (switchToSession sessionId st) := by
  obtain ⟨hne, hnd, hcur, hact⟩ := hinv
  unfold switchToSession
  by_cases heq : (sessionId == st.currentSessionId) = true
  · rw [if_pos heq]
    exact ⟨hne, hnd, hcur, hact⟩
  · rw [if_neg heq]
    have hmem' : sessionId ∈ st.sessions.map Session.id := by
      rcases hmem with hmem | hmem
      · exact hmem
      · exact absurd (by simp [hmem]) heq
    refine ⟨?_, ?_, ?_, ?_⟩
    · intro hc
      exact hne (List.map_eq_nil_iff.mp hc)
    · show ((st.sessions.map (fun s => { s with active := s.id == sessionId })).map
        Session.id).Nodup
      rw [List.map_map]
      exact hnd
    · show sessionId ∈ (st.sessions.map
        (fun s => { s with active := s.id == sessionId })).map Session.id
      rw [List.map_map]
      exact hmem'
    · intro s hs
      obtain ⟨s0, -, rfl⟩ := List.mem_map.mp hs
      rfl

lemma jsMapIdx_markActive_map_id (l : List Session) :
    ∀ n, (jsMapIdx (fun i s => { s with active := i == 0 }) n l).map Session.id =
      l.map Session.id := by
  induction l with
  | nil => intro n; rfl
  | cons x tl ih =>
    intro n
    show ({ x with active := n == 0 } : Session).id ::
        (jsMapIdx (fun i s => { s with active := i == 0 }) (n + 1) tl).map Session.id =
      x.id :: tl.map Session.id
    rw [ih]

lemma jsMapIdx_markActive_tail (l : List Session) :
    ∀ n, n ≠ 0 →
      ∀ s ∈ jsMapIdx (fun i s => { s with active := i == 0 }) n l,
        s.active = false ∧ ∃ s0 ∈ l, s.id = s0.id := by
  induction l with
  | nil => intro n _ s hs; cases hs
  | cons x tl ih =>
    intro n hn s hs
    rcases List.mem_cons.mp hs with rfl | hs'
    · constructor
      · show (n == 0) = false
        simp [hn]
      · exact ⟨x, List.mem_cons_self x tl, rfl⟩
    · obtain ⟨ha, s0, hs0, hid⟩ := ih (n + 1) (Nat.succ_ne_zero n) s hs'
      exact ⟨ha, s0, List.mem_cons_of_mem x hs0, hid⟩

lemma confirmDeleteSession_inv (deleteId freshId : String) (now : Int) (st : ChatState)
    (hinv : SessionInvariant st) :
    SessionInvariant (confirmDeleteSession deleteId freshId now st) := by
  obtain ⟨hne, hnd, hcur, hact⟩ := hinv
  have hsub : List.Sublist ((st.sessions.filter (fun s => !(s.id == deleteId))).map Session.id)
      (st.sessions.map Session.id) :=
    List.Sublist.map Session.id (List.filter_sublist st.sessions)
  have hndf : ((st.sessions.filter (fun s => !(s.id == deleteId))).map Session.id).Nodup :=
    hnd.sublist hsub
  simp only [confirmDeleteSession]
  by_cases heq : (deleteId == st.currentSessionId) = true
  · rw [if_pos heq]
    rcases hF : st.sessions.filter (fun s => !(s.id == deleteId)) with - | ⟨first, rest⟩
    · rw [hF]
      apply createNewSession_inv
      · simp
      · simp
    · rw [hF] at hndf ⊢
      refine ⟨?_, ?_, ?_, ?_⟩
      · exact List.cons_ne_nil _ _
      · show ((jsMapIdx (fun i s => { s with active := i == 0 }) 0
          (first :: rest)).map Session.id).Nodup
        rw [jsMapIdx_markActive_map_id]
        exact hndf
      · show first.id ∈ (jsMapIdx (fun i s => { s with active := i == 0 }) 0
          (first :: rest)).map Session.id
        rw [jsMapIdx_markActive_map_id]
        exact List.mem_map.mpr ⟨first, List.mem_cons_self first rest, rfl⟩
      · intro s hs
        have hcons : jsMapIdx (fun i s => { s with active := i == 0 }) 0 (first :: rest) =
            ({ first with active := true } : Session) ::
              jsMapIdx (fun i s => { s with active := i == 0 }) 1 rest := rfl
        rw [hcons] at hs
        rcases List.mem_cons.mp hs with rfl | hs'
        · show true = (first.id == first.id)
          simp
        · obtain ⟨ha, s0, hs0, hid⟩ :=
            jsMapIdx_markActive_tail rest 1 (Nat.one_ne_zero) s hs'
          have hs0ne : s0.id ≠ first.id := fun he =>
            (List.nodup_cons.mp hndf).1 (he ▸ List.mem_map.mpr ⟨s0, hs0, rfl⟩)
          rw [ha, hid]
          show (false : Bool) = (s0.id == first.id)
          simp [hs0ne]
  · rw [if_neg heq]
    obtain ⟨s0, hs0, hs0id⟩ : ∃ s0 ∈ st.sessions, s0.id = st.currentSessionId := by
      obtain ⟨s0, hs0, hid⟩ := List.mem_map.mp hcur
      exact ⟨s0, hs0, hid⟩
    have hdelne : deleteId ≠ st.currentSessionId := by simpa using heq
    have hs0f : s0 ∈ st.sessions.filter (fun s => !(s.id == deleteId)) := by
      rw [List.mem_filter]
      refine ⟨hs0, ?_⟩
      rw [hs0id]
      simp [Ne.symm hdelne]
    refine ⟨?_, hndf, ?_, ?_⟩
    · exact List.ne_nil_of_mem hs0f
    · exact List.mem_map.mpr ⟨s0, hs0f, hs0id⟩
    · intro s hs
      exact hact s (List.mem_filter.mp hs).1

lemma applyRegOp_inv (st : ChatState) (op : RegOp)
    (hinv : SessionInvariant st) (hv : RegOpValid st op = true) :
    SessionInvariant (applyRegOp st op) := by
  cases op with
  | create newId now =>
    refine createNewSession_inv newId now st hinv.2.1 ?_
    intro hmem
    simp only [RegOpValid, Bool.not_eq_true'] at hv
    rw [List.any_eq_false] at hv
    exact hv newId hmem (by simp)
  | switch sessionId =>
    refine switchToSession_inv sessionId st hinv ?_
    simp only [RegOpValid, Bool.or_eq_true, List.any_eq_true] at hv
    rcases hv with ⟨i, hi, hib⟩ | hb
    · have : i = sessionId := by simpa using hib
      exact Or.inl (this ▸ hi)
    · exact Or.inr (by simpa using hb)
  | delete sessionId freshId now =>
    exact confirmDeleteSession_inv sessionId freshId now st hinv

lemma applyRegOps_inv :
    ∀ (ops : List RegOp) (st : ChatState), SessionInvariant st →
      RegOpsValid st ops = true → SessionInvariant (applyRegOps st ops) := by
  intro ops
  induction ops with
  | nil => intro st h _; exact h
  | cons op rest ih =>
    intro st hinv hv
    rw [show RegOpsValid st (op :: rest) =
      (RegOpValid st op && RegOpsValid (applyRegOp st op) rest) from rfl,
      Bool.and_eq_true] at hv
    exact ih (applyRegOp st op) (applyRegOp_inv st op hinv hv.1) hv.2

lemma initComponent_inv (storage : Option StoredRaw) (freshId : String) (now : Int)
    (hwf : StoredWF storage) :
    SessionInvariant (initComponent freshId now
      { initialChatState with storage := storage }) := by
  unfold StoredWF at hwf
  unfold initComponent
  cases h : loadStoredSessionData storage with
  | none =>
    exact createNewSession_inv freshId now _ (by simp [initialChatState])
      (by simp [initialChatState])
  | some d =>
    rw [h] at hwf
    have hwf2 : d.currentSessionId ≠ "" → d.sessions ≠ [] →
        ((d.sessions.map Session.id).Nodup ∧
          d.currentSessionId ∈ d.sessions.map Session.id) := hwf
    dsimp only
    by_cases hc : d.currentSessionId ≠ "" ∧ d.sessions ≠ []
    · rw [if_pos hc]
      obtain ⟨hndd, hmemd⟩ := hwf2 hc.1 hc.2
      refine ⟨?_, ?_, ?_, ?_⟩
      · intro hcontra
        exact hc.2 (List.map_eq_nil_iff.mp hcontra)
      · show ((d.sessions.map
          (fun s => { s with active := s.id == d.currentSessionId })).map Session.id).Nodup
        rw [List.map_map]
        exact hndd
      · show d.currentSessionId ∈ (d.sessions.map
          (fun s => { s with active := s.id == d.currentSessionId })).map Session.id
        rw [List.map_map]
        exact hmemd
      · intro s hs
        obtain ⟨s0, -, rfl⟩ := List.mem_map.mp hs
        rfl
    · rw [if_neg hc]
      exact createNewSession_inv freshId now _ (by simp [initialChatState])
        (by simp [initialChatState])

lemma invariant_one_active (st : ChatState) (hinv : SessionInvariant st) :
    (st.sessions.filter (fun s => s.active)).length = 1 := by
  obtain ⟨hne, hnd, hcur, hact⟩ := hinv
  have hfe : st.sessions.filter (fun s => s.active) =
      st.sessions.filter (fun s => s.id == st.currentSessionId) :=
    List.filter_congr (fun s hs => by rw [hact s hs])
  rw [hfe, ← List.countP_eq_length_filter]
  have hcm : st.sessions.countP (fun s => s.id == st.currentSessionId) =
      (st.sessions.map Session.id).count st.currentSessionId := by
    rw [List.count, List.countP_map]
    rfl
  rw [hcm]
  exact List.count_eq_one_of_mem hnd hcur

/-- C2: starting from an initialized store (empty or well-formed persisted
state), after any valid finite sequence of `createSession`, `switchSession`
and `deleteSession` operations, whenever the session list is non-empty exactly
one session is `active` and `currentSessionId` names a listed session. -/
theorem session_registry_invariant (storage : Option StoredRaw) (freshId : String)
    (now : Int) (ops : List RegOp) (hwf : StoredWF storage)
    (hv : RegOpsValid (initComponent freshId now
      { initialChatState with storage := storage }) ops = true) :
    (applyRegOps (initComponent freshId now
        { initialChatState with storage := storage }) ops).sessions ≠ [] →
      ((applyRegOps (initComponent freshId now
          { initialChatState with storage := storage }) ops).sessions.filter
          (fun s => s.active)).length = 1 ∧
      (applyRegOps (initComponent freshId now
          { initialChatState with storage := storage }) ops).currentSessionId ∈
        (applyRegOps (initComponent freshId now
          { initialChatState with storage := storage }) ops).sessions.map Session.id := by
  intro _
  have hinv := applyRegOps_inv ops _ (initComponent_inv storage freshId now hwf) hv
  exact ⟨invariant_one_active _ hinv, hinv.2.2.1⟩

/-- Witness for `session_registry_invariant`: initialize with empty storage,
create a second session, switch back to the first, then delete it (the active
one) — exactly one session stays active and the current id resolves. -/
theorem session_registry_invariant_witness :
    ((applyRegOps (initComponent "aaa" 0 { initialChatState with storage := none })
        [RegOp.create "bbb" 5, RegOp.switch "aaa", RegOp.delete "aaa" "zzz" 6]).sessions.filter
        (fun s => s.active)).length = 1 ∧
    (applyRegOps (initComponent "aaa" 0 { initialChatState with storage := none })
        [RegOp.create "bbb" 5, RegOp.switch "aaa", RegOp.delete "aaa" "zzz" 6]).currentSessionId ∈
      (applyRegOps (initComponent "aaa" 0 { initialChatState with storage := none })
        [RegOp.create "bbb" 5, RegOp.switch "aaa", RegOp.delete "aaa" "zzz" 6]).sessions.map
        Session.id := by
  have h := session_registry_invariant none "aaa" 0
    [RegOp.create "bbb" 5, RegOp.switch "aaa", RegOp.delete "aaa" "zzz" 6]
    trivial (by decide)
  exact h (by decide)

end ChatClient
